import Mathlib

/-!
Shallow embedding of the angle-computation and phase-detection core of the
motionlab-ai repository (`src/core/angle_calculator.py` and
`src/core/phase_detector.py`), together with theorems settling the frozen
claims about it.

Floating-point numbers of the source are modelled as real numbers; Python
`None`-or-float results are modelled as `Option ℝ`; a Python exception that
can escape an expression is modelled with `Except PyErr`.
-/

open Real

noncomputable section

namespace MotionLab

/-- One MediaPipe pose landmark, the per-point dict
`{"x": _, "y": _, "z": _, "visibility": _}` of `angle_calculator.py`. -/
structure Landmark where
  x : ℝ
  y : ℝ
  z : ℝ
  visibility : ℝ

/-- Python `round(v, 1)`: round to one decimal place. -/
def roundTo1 (v : ℝ) : ℝ := (round (v * 10) : ℤ) / 10

/-- Python `int(v)` on a float: truncation toward zero. -/
def pyInt (v : ℝ) : ℤ := if 0 ≤ v then ⌊v⌋ else -⌊-v⌋

/-- The four-quadrant arctangent `np.arctan2 y x`. -/
def atan2 (y x : ℝ) : ℝ :=
  if 0 < x then arctan (y / x)
  else if x < 0 then
    (if 0 ≤ y then arctan (y / x) + π else arctan (y / x) - π)
  else if 0 < y then π / 2
  else if y < 0 then -(π / 2)
  else 0

/-- Python exceptions that the embedded code can raise. -/
inductive PyErr where
  | indexError : PyErr
  | keyError : PyErr
deriving DecidableEq

/-- The `LANDMARK_INDICES` dict of `angle_calculator.py`. -/
def LANDMARK_INDICES : List (String × ℕ) :=
  [("left_shoulder", 11), ("right_shoulder", 12),
   ("left_elbow", 13), ("right_elbow", 14),
   ("left_wrist", 15), ("right_wrist", 16),
   ("left_hip", 23), ("right_hip", 24),
   ("left_knee", 25), ("right_knee", 26),
   ("left_ankle", 27), ("right_ankle", 28)]

/-- Dict access `LANDMARK_INDICES[name]`: a missing key raises `KeyError`. -/
def lookupIndex (name : String) : Except PyErr ℕ :=
  match LANDMARK_INDICES.lookup name with
  | some i => .ok i
  | none => .error .keyError

/-- List subscript `landmarks[i]`, for a nonnegative literal index:
an out-of-range index raises `IndexError`. -/
def getLandmark (landmarks : List Landmark) (i : ℕ) : Except PyErr Landmark :=
  match landmarks.get? i with
  | some p => .ok p
  | none => .error .indexError

/-- Method `_calculate_angle_3points` of `AngleCalculator`: the vertex angle at `point_b`
formed by `point_a` and `point_c`.  Its own `try/except` means it never
raises; a visibility below `min_visibility` or a zero-length vector yields
`None`. -/
def calculateAngle3points (minVisibility : ℝ)
    (pointA pointB pointC : Landmark) : Option ℝ :=
  if pointA.visibility < minVisibility ∨ pointB.visibility < minVisibility ∨
      pointC.visibility < minVisibility then
    none
  else
    let bax := pointA.x - pointB.x
    let bay := pointA.y - pointB.y
    let baz := pointA.z - pointB.z
    let bcx := pointC.x - pointB.x
    let bcy := pointC.y - pointB.y
    let bcz := pointC.z - pointB.z
    let baNorm := Real.sqrt (bax ^ 2 + bay ^ 2 + baz ^ 2)
    let bcNorm := Real.sqrt (bcx ^ 2 + bcy ^ 2 + bcz ^ 2)
    if baNorm = 0 ∨ bcNorm = 0 then none
    else
      let cosAngle := (bax * bcx + bay * bcy + baz * bcz) / (baNorm * bcNorm)
      let clipped := min 1 (max (-1) cosAngle)
      some (roundTo1 (Real.arccos clipped * 180 / π))

/-- Method `_calculate_hip_shoulder_separation` of `AngleCalculator`: absolute difference
of the shoulder-line and hip-line orientations, in degrees.  Its own
`try/except` turns any failure (including an out-of-range subscript) into
`None`. -/
def calculateHipShoulderSeparation (minVisibility : ℝ)
    (landmarks : List Landmark) : Option ℝ :=
  match landmarks.get? 23, landmarks.get? 24, landmarks.get? 11, landmarks.get? 12 with
  | some leftHip, some rightHip, some leftShoulder, some rightShoulder =>
    if leftHip.visibility < minVisibility ∨ rightHip.visibility < minVisibility ∨
        leftShoulder.visibility < minVisibility ∨
        rightShoulder.visibility < minVisibility then
      none
    else
      let hipAngle := atan2 (rightHip.y - leftHip.y) (rightHip.x - leftHip.x)
      let shoulderAngle :=
        atan2 (rightShoulder.y - leftShoulder.y) (rightShoulder.x - leftShoulder.x)
      some (roundTo1 (|shoulderAngle - hipAngle| * 180 / π))
  | _, _, _, _ => none

/-- Method `_calculate_arm_angle` of `AngleCalculator`: shoulder-elbow-wrist angle of one
side.  The dict lookups and the list subscripts are evaluated outside any
`try`, so they can raise. -/
def calculateArmAngle (minVisibility : ℝ) (landmarks : List Landmark)
    (side : String) : Except PyErr (Option ℝ) := do
  let shoulderIdx ← lookupIndex (side ++ "_shoulder")
  let elbowIdx ← lookupIndex (side ++ "_elbow")
  let wristIdx ← lookupIndex (side ++ "_wrist")
  let a ← getLandmark landmarks shoulderIdx
  let b ← getLandmark landmarks elbowIdx
  let c ← getLandmark landmarks wristIdx
  pure (calculateAngle3points minVisibility a b c)

/-- Method `_calculate_spine_angle` of `AngleCalculator`: left shoulder-hip-knee angle. -/
def calculateSpineAngle (minVisibility : ℝ)
    (landmarks : List Landmark) : Except PyErr (Option ℝ) := do
  let iA ← lookupIndex "left_shoulder"
  let a ← getLandmark landmarks iA
  let iB ← lookupIndex "left_hip"
  let b ← getLandmark landmarks iB
  let iC ← lookupIndex "left_knee"
  let c ← getLandmark landmarks iC
  pure (calculateAngle3points minVisibility a b c)

/-- Method `_calculate_knee_angle` of `AngleCalculator`: hip-knee-ankle angle of one
side. -/
def calculateKneeAngle (minVisibility : ℝ) (landmarks : List Landmark)
    (side : String) : Except PyErr (Option ℝ) := do
  let hipIdx ← lookupIndex (side ++ "_hip")
  let kneeIdx ← lookupIndex (side ++ "_knee")
  let ankleIdx ← lookupIndex (side ++ "_ankle")
  let a ← getLandmark landmarks hipIdx
  let b ← getLandmark landmarks kneeIdx
  let c ← getLandmark landmarks ankleIdx
  pure (calculateAngle3points minVisibility a b c)

/-- Method `_calculate_frame_angles` of `AngleCalculator`: the six named angles of one
frame, as a key-ordered dict.  The surrounding `try/except` turns any raised
exception into `None` for the whole frame. -/
def calculateFrameAngles (minVisibility : ℝ)
    (landmarks : List Landmark) : Option (List (String × Option ℝ)) :=
  (do
    let leftArm ← calculateArmAngle minVisibility landmarks "left"
    let rightArm ← calculateArmAngle minVisibility landmarks "right"
    let spine ← calculateSpineAngle minVisibility landmarks
    let hipShoulder := calculateHipShoulderSeparation minVisibility landmarks
    let leftKnee ← calculateKneeAngle minVisibility landmarks "left"
    let rightKnee ← calculateKneeAngle minVisibility landmarks "right"
    pure [("left_arm_angle", leftArm), ("right_arm_angle", rightArm),
          ("spine_angle", spine), ("hip_shoulder_separation", hipShoulder),
          ("left_knee_angle", leftKnee), ("right_knee_angle", rightKnee)]
    : Except PyErr (List (String × Option ℝ))).toOption

/-- One element of the `landmarks_data` input of
`AngleCalculator.calculate_angles`. -/
structure FrameData where
  frame_index : ℤ
  landmarks : List Landmark

/-- One element of the `frame_angles` output of
`AngleCalculator.calculate_angles`. -/
structure FrameAngles where
  frame_index : ℤ
  angles : List (String × Option ℝ)

/-- The full output of `AngleCalculator.calculate_angles`. -/
structure AnglesResult where
  frame_angles : List FrameAngles
  average_angles : List (String × Option ℝ)

/-- The body of the per-frame loop of `calculate_angles`: a frame is appended
to `frame_angles` exactly when `_calculate_frame_angles` returned a truthy
(non-`None`, non-empty) dict. -/
def frameEntry (minVisibility : ℝ) (frameData : FrameData) : Option FrameAngles :=
  match calculateFrameAngles minVisibility frameData.landmarks with
  | some angles => if angles.isEmpty then none else some ⟨frameData.frame_index, angles⟩
  | none => none

/-- Python `valid_angles[key].append(value)` on the insertion-ordered
`defaultdict(list)`. -/
def addValid : List (String × List ℝ) → String → ℝ → List (String × List ℝ)
  | [], key, v => [(key, [v])]
  | (key', vs) :: rest, key, v =>
      if key' = key then (key', vs ++ [v]) :: rest
      else (key', vs) :: addValid rest key v

/-- Accumulate the non-`None` values of the angle dict of one frame into
`valid_angles`. -/
def accumFrame (acc : List (String × List ℝ)) (angles : List (String × Option ℝ)) :
    List (String × List ℝ) :=
  angles.foldl
    (fun acc' kv =>
      match kv.2 with
      | some v => addValid acc' kv.1 v
      | none => acc')
    acc

/-- Mean of a list, `np.mean`. -/
def npMean (xs : List ℝ) : ℝ := xs.sum / xs.length

/-- Method `calculate_angles` of `AngleCalculator`: per-frame angles plus per-name
averages over the successfully computed values. -/
def calculateAngles (minVisibility : ℝ) (landmarksData : List FrameData) :
    AnglesResult :=
  let frames := landmarksData.filterMap (frameEntry minVisibility)
  let valid := frames.foldl (fun acc fa => accumFrame acc fa.angles) []
  ⟨frames,
   valid.map (fun kv =>
     (kv.1, if kv.2.isEmpty then none else some (roundTo1 (npMean kv.2))))⟩

/-- One entry of the `phase_config` list handed to `PhaseDetector`
(the `PhaseRule` TypedDict of `sport_configs/base_config.py`). -/
structure PhaseRule where
  name : String
  detection_rule : String
  target_angle : Option String
  params : List (String × ℝ)

/-- One detected phase, as emitted by `PhaseDetector._create_phases`. -/
structure Phase where
  name : String
  start_frame : ℤ
  end_frame : ℤ
  duration_ms : ℤ

/-- The `PhaseDetector` object: the stored configuration and the video
frame rate. -/
structure PhaseDetector where
  phase_config : List PhaseRule
  fps : ℝ

/-- Method `_frame_to_ms` of `PhaseDetector`: `int((frames / self.fps) * 1000)`. -/
def frameToMs (d : PhaseDetector) (frames : ℤ) : ℤ :=
  pyInt ((frames : ℝ) / d.fps * 1000)

/-- Python `dict.get(key)` on an angle dict whose values may be `None`:
both a missing key and a stored `None` yield `None`. -/
def dictGet (d : List (String × Option ℝ)) (key : String) : Option ℝ :=
  (d.lookup key).join

/-- Method `_extract_angle_series` of `PhaseDetector`: the dense per-frame series of one
angle, holding the previous value over gaps and substituting `0.0` before the
first value. -/
def extractAngleSeries (frameAngles : List FrameAngles) (angleName : String) :
    List ℝ :=
  frameAngles.foldl
    (fun angles frameData =>
      match dictGet frameData.angles angleName with
      | some v => angles ++ [v]
      | none =>
        match angles.getLast? with
        | some prev => angles ++ [prev]
        | none => angles ++ [0.0])
    []

/-- Standard deviation of a list, `np.std` (population convention). -/
def npStd (xs : List ℝ) : ℝ :=
  Real.sqrt (npMean (xs.map (fun x => (x - npMean xs) ^ 2)))

/-- First index of the maximal element, `np.argmax`: the running scan. -/
def argmaxGo (curIdx bestIdx : ℕ) (bestVal : ℝ) : List ℝ → ℕ
  | [] => bestIdx
  | v :: rest =>
      if bestVal < v then argmaxGo (curIdx + 1) curIdx v rest
      else argmaxGo (curIdx + 1) bestIdx bestVal rest

/-- Index of the first maximum, `np.argmax`, on a nonempty list (numpy raises on an empty one; the
callers guard against that case). -/
def npArgmax : List ℝ → ℕ
  | [] => 0
  | v :: rest => argmaxGo 1 0 v rest

/-- First index of the minimal element, `np.argmin`: the running scan. -/
def argminGo (curIdx bestIdx : ℕ) (bestVal : ℝ) : List ℝ → ℕ
  | [] => bestIdx
  | v :: rest =>
      if v < bestVal then argminGo (curIdx + 1) curIdx v rest
      else argminGo (curIdx + 1) bestIdx bestVal rest

/-- Index of the first minimum, `np.argmin`, on a nonempty list. -/
def npArgmin : List ℝ → ℕ
  | [] => 0
  | v :: rest => argminGo 1 0 v rest

/-- Python `for i in range(a, a + n): if p(i): return i`, else fall through. -/
def scanFirst (p : ℕ → Prop) [DecidablePred p] : ℕ → ℕ → Option ℕ
  | _, 0 => none
  | i, n + 1 => if p i then some i else scanFirst p (i + 1) n

/-- Python slice `xs[a:b]` for `0 ≤ a ≤ b`. -/
def pySlice (xs : List ℝ) (a b : ℕ) : List ℝ := (xs.drop a).take (b - a)

/-- Method `_detect_address_end` of `PhaseDetector`: first frame where the 5-frame
forward moving average exceeds the backward one by more than 5 degrees;
falls back to `int(0.1 * N)`. -/
def detectAddressEnd (series : List ℝ) : ℕ :=
  match scanFirst
      (fun i => 5.0 < npMean (pySlice series i (i + 5)) - npMean (pySlice series (i - 5) i))
      5 (series.length - 5 - 5) with
  | some i => i
  | none => (pyInt ((series.length : ℝ) * 0.1)).toNat

/-- Method `_detect_top` of `PhaseDetector`: index of the maximal value at or after
`start_frame`. -/
def detectTop (series : List ℝ) (startFrame : ℕ) : ℕ :=
  let searchRange := series.drop startFrame
  if searchRange.isEmpty then startFrame
  else startFrame + npArgmax searchRange

/-- Method `_detect_impact` of `PhaseDetector`: index of the minimal value at or after
`top_frame`. -/
def detectImpact (series : List ℝ) (topFrame : ℕ) : ℕ :=
  let searchRange := series.drop topFrame
  if searchRange.isEmpty then topFrame
  else topFrame + npArgmin searchRange

/-- Method `_detect_finish` of `PhaseDetector`: first window of 10 frames after impact
whose standard deviation drops below 2 degrees; falls back to the last
frame. -/
def detectFinish (series : List ℝ) (impactFrame : ℕ) : ℕ :=
  match scanFirst
      (fun i => npStd (pySlice series i (i + 10)) < 2.0)
      (impactFrame + 10) (series.length - 10 - (impactFrame + 10)) with
  | some i => i
  | none => series.length - 1

/-- Method `_create_phases` of `PhaseDetector`: the fixed five-phase list built from the
four anchors (`total_frames` is accepted and unused, as in the source). -/
def createPhases (d : PhaseDetector)
    (addressEnd topFrame impactFrame finishFrame : ℕ) (totalFrames : ℕ) :
    List Phase :=
  [⟨"address", 0, addressEnd, frameToMs d addressEnd⟩,
   ⟨"backswing", addressEnd, topFrame, frameToMs d ((topFrame : ℤ) - addressEnd)⟩,
   ⟨"top", (topFrame : ℤ) - 2, (topFrame : ℤ) + 2, frameToMs d 4⟩,
   ⟨"downswing", topFrame, impactFrame, frameToMs d ((impactFrame : ℤ) - topFrame)⟩,
   ⟨"follow_through", impactFrame, finishFrame,
    frameToMs d ((finishFrame : ℤ) - impactFrame)⟩]

/-- Method `detect_phases` of `PhaseDetector`: extract the left-arm angle series, detect
the four anchors, and assemble the phase list. -/
def detectPhases (d : PhaseDetector) (anglesData : AnglesResult) : List Phase :=
  let frameAngles := anglesData.frame_angles
  if frameAngles.isEmpty then []
  else
    let leftArmAngles := extractAngleSeries frameAngles "left_arm_angle"
    if leftArmAngles.isEmpty then []
    else
      let addressEnd := detectAddressEnd leftArmAngles
      let topFrame := detectTop leftArmAngles addressEnd
      let impactFrame := detectImpact leftArmAngles topFrame
      let finishFrame := detectFinish leftArmAngles impactFrame
      createPhases d addressEnd topFrame impactFrame finishFrame
        leftArmAngles.length

/-! ### Concrete fixtures used by the theorems below -/

/-- A common translation of all three coordinates (visibility unchanged). -/
def translateLm (t : ℝ × ℝ × ℝ) (p : Landmark) : Landmark :=
  ⟨p.x + t.1, p.y + t.2.1, p.z + t.2.2, p.visibility⟩

/-- A frame whose hip line and shoulder line point into opposite
half-planes: shoulders rotated to 135 degrees, hips to -135 degrees. -/
def lmC2 : List Landmark :=
  [⟨0, 0, 0, 1⟩, ⟨0, 0, 0, 1⟩, ⟨0, 0, 0, 1⟩, ⟨0, 0, 0, 1⟩, ⟨0, 0, 0, 1⟩,
   ⟨0, 0, 0, 1⟩, ⟨0, 0, 0, 1⟩, ⟨0, 0, 0, 1⟩, ⟨0, 0, 0, 1⟩, ⟨0, 0, 0, 1⟩,
   ⟨0, 0, 0, 1⟩,
   ⟨0, 0, 0, 1⟩,          -- 11: left_shoulder
   ⟨-1, 1, 0, 1⟩,         -- 12: right_shoulder
   ⟨0, 0, 0, 1⟩, ⟨0, 0, 0, 1⟩, ⟨0, 0, 0, 1⟩, ⟨0, 0, 0, 1⟩, ⟨0, 0, 0, 1⟩,
   ⟨0, 0, 0, 1⟩, ⟨0, 0, 0, 1⟩, ⟨0, 0, 0, 1⟩, ⟨0, 0, 0, 1⟩, ⟨0, 0, 0, 1⟩,
   ⟨0, 0, 0, 1⟩,          -- 23: left_hip
   ⟨-1, -1, 0, 1⟩]        -- 24: right_hip

/-- A frame like `lmC2` but with the four rotation-gate points at
visibility exactly 0.5 (the threshold itself). -/
def lmC9eq : List Landmark :=
  [⟨0, 0, 0, 1⟩, ⟨0, 0, 0, 1⟩, ⟨0, 0, 0, 1⟩, ⟨0, 0, 0, 1⟩, ⟨0, 0, 0, 1⟩,
   ⟨0, 0, 0, 1⟩, ⟨0, 0, 0, 1⟩, ⟨0, 0, 0, 1⟩, ⟨0, 0, 0, 1⟩, ⟨0, 0, 0, 1⟩,
   ⟨0, 0, 0, 1⟩,
   ⟨0, 0, 0, 0.5⟩,        -- 11: left_shoulder
   ⟨-1, 1, 0, 0.5⟩,       -- 12: right_shoulder
   ⟨0, 0, 0, 1⟩, ⟨0, 0, 0, 1⟩, ⟨0, 0, 0, 1⟩, ⟨0, 0, 0, 1⟩, ⟨0, 0, 0, 1⟩,
   ⟨0, 0, 0, 1⟩, ⟨0, 0, 0, 1⟩, ⟨0, 0, 0, 1⟩, ⟨0, 0, 0, 1⟩, ⟨0, 0, 0, 1⟩,
   ⟨0, 0, 0, 0.5⟩,        -- 23: left_hip
   ⟨-1, -1, 0, 0.5⟩]      -- 24: right_hip

/-- A frame like `lmC9eq` but with the right hip strictly below the
threshold (visibility 0.4). -/
def lmC9lt : List Landmark :=
  [⟨0, 0, 0, 1⟩, ⟨0, 0, 0, 1⟩, ⟨0, 0, 0, 1⟩, ⟨0, 0, 0, 1⟩, ⟨0, 0, 0, 1⟩,
   ⟨0, 0, 0, 1⟩, ⟨0, 0, 0, 1⟩, ⟨0, 0, 0, 1⟩, ⟨0, 0, 0, 1⟩, ⟨0, 0, 0, 1⟩,
   ⟨0, 0, 0, 1⟩,
   ⟨0, 0, 0, 0.5⟩,        -- 11: left_shoulder
   ⟨-1, 1, 0, 0.5⟩,       -- 12: right_shoulder
   ⟨0, 0, 0, 1⟩, ⟨0, 0, 0, 1⟩, ⟨0, 0, 0, 1⟩, ⟨0, 0, 0, 1⟩, ⟨0, 0, 0, 1⟩,
   ⟨0, 0, 0, 1⟩, ⟨0, 0, 0, 1⟩, ⟨0, 0, 0, 1⟩, ⟨0, 0, 0, 1⟩, ⟨0, 0, 0, 1⟩,
   ⟨0, 0, 0, 0.5⟩,        -- 23: left_hip
   ⟨-1, -1, 0, 0.4⟩]      -- 24: right_hip

/-- A landmark with zero visibility (below any positive threshold). -/
def lm0 : Landmark := ⟨0, 0, 0, 0⟩

/-- A full 33-landmark frame in which every point is invisible. -/
def lms33 : List Landmark := List.replicate 33 lm0

/-- The angle dict of a frame in which every calculator returned `None`. -/
def allNone6 : List (String × Option ℝ) :=
  [("left_arm_angle", none), ("right_arm_angle", none), ("spine_angle", none),
   ("hip_shoulder_separation", none), ("left_knee_angle", none),
   ("right_knee_angle", none)]

/-- A 16-landmark frame: the left-arm points (11, 13, 15) are present and
well placed, but index 16 (right wrist) is out of range. -/
def lms16 : List Landmark :=
  [⟨0, 0, 0, 1⟩, ⟨0, 0, 0, 1⟩, ⟨0, 0, 0, 1⟩, ⟨0, 0, 0, 1⟩, ⟨0, 0, 0, 1⟩,
   ⟨0, 0, 0, 1⟩, ⟨0, 0, 0, 1⟩, ⟨0, 0, 0, 1⟩, ⟨0, 0, 0, 1⟩, ⟨0, 0, 0, 1⟩,
   ⟨0, 0, 0, 1⟩,
   ⟨0, 1, 0, 1⟩,          -- 11: left_shoulder
   ⟨0, 0, 0, 1⟩,
   ⟨0, 0, 0, 1⟩,          -- 13: left_elbow
   ⟨0, 0, 0, 1⟩,
   ⟨1, 0, 0, 1⟩]          -- 15: left_wrist

/-- An angle-engine output with one frame in which every angle is `None`
(scenario: every frame lacks the target angle; the extracted series is the
all-zero series `[0.0]`). -/
def inputC4 : AnglesResult := ⟨[⟨0, allNone6⟩], []⟩

/-! ### Helper lemmas -/

/-- Monotonicity of `round`. -/
lemma round_mono {x y : ℝ} (h : x ≤ y) : round x ≤ round y := by
  rw [round_eq, round_eq]
  exact Int.floor_le_floor (by linarith)

/-- Rounding to one decimal fixes integers. -/
lemma roundTo1_intCast (n : ℤ) : roundTo1 (n : ℝ) = (n : ℝ) := by
  unfold roundTo1
  have h10 : ((n : ℝ) * 10) = ((n * 10 : ℤ) : ℝ) := by push_cast; ring
  rw [h10, round_intCast]
  push_cast
  ring

/-- Rounding to one decimal respects an integer upper bound. -/
lemma roundTo1_le_intCast {x : ℝ} (n : ℤ) (h : x ≤ (n : ℝ)) :
    roundTo1 x ≤ (n : ℝ) := by
  unfold roundTo1
  have h1 : round (x * 10) ≤ ((n * 10 : ℤ) : ℤ) := by
    have : ((n : ℝ) * 10) = ((n * 10 : ℤ) : ℝ) := by push_cast; ring
    calc round (x * 10) ≤ round ((n : ℝ) * 10) := round_mono (by linarith)
      _ = n * 10 := by rw [this, round_intCast]
  have h2 : ((round (x * 10) : ℤ) : ℝ) ≤ ((n * 10 : ℤ) : ℝ) := by exact_mod_cast h1
  have : ((n * 10 : ℤ) : ℝ) / 10 = (n : ℝ) := by push_cast; ring
  calc ((round (x * 10) : ℤ) : ℝ) / 10 ≤ ((n * 10 : ℤ) : ℝ) / 10 := by linarith
    _ = (n : ℝ) := this

/-- Rounding to one decimal preserves nonnegativity. -/
lemma roundTo1_nonneg {x : ℝ} (h : 0 ≤ x) : 0 ≤ roundTo1 x := by
  unfold roundTo1
  have h1 : (0 : ℤ) ≤ round (x * 10) := by
    have := round_mono (show (0 : ℝ) ≤ x * 10 by linarith)
    rwa [round_zero] at this
  have h2 : ((0 : ℤ) : ℝ) ≤ ((round (x * 10) : ℤ) : ℝ) := by exact_mod_cast h1
  have : (0 : ℝ) ≤ ((round (x * 10) : ℤ) : ℝ) := by exact_mod_cast h2
  linarith

/-! ### Claim C1: dependence of the 3-point angle on the z coordinate -/

/-- Right angle in the xy-plane: vertex at the origin, legs along x and y. -/
lemma angle3_right :
    calculateAngle3points 0.5 ⟨0, 1, 0, 1⟩ ⟨0, 0, 0, 1⟩ ⟨1, 0, 0, 1⟩ = some 90 := by
  have hπ := Real.pi_ne_zero
  simp only [calculateAngle3points]
  rw [if_neg (by norm_num)]
  norm_num [Real.sqrt_one]
  have h90 : π / 2 * 180 / π = 90 := by field_simp; ring
  rw [h90]
  have h := roundTo1_intCast 90
  norm_num at h
  rw [h]

/-- The same points with the z coordinates of A and C raised to 1: a
60-degree angle. -/
lemma angle3_sixty :
    calculateAngle3points 0.5 ⟨0, 1, 1, 1⟩ ⟨0, 0, 0, 1⟩ ⟨1, 0, 1, 1⟩ = some 60 := by
  have hπ := Real.pi_ne_zero
  have hs2 : Real.sqrt 2 * Real.sqrt 2 = 2 := Real.mul_self_sqrt (by norm_num)
  have hs2ne : Real.sqrt 2 ≠ 0 := by
    intro h
    rw [h] at hs2
    norm_num at hs2
  simp only [calculateAngle3points]
  rw [if_neg (by norm_num)]
  have h1 : ((0 : ℝ) - 0) ^ 2 + (1 - 0) ^ 2 + (1 - 0) ^ 2 = 2 := by norm_num
  have h2 : ((1 : ℝ) - 0) ^ 2 + (0 - 0) ^ 2 + (1 - 0) ^ 2 = 2 := by norm_num
  rw [h1, h2, if_neg (by simp [hs2ne])]
  have hcos : ((0 : ℝ) - 0) * (1 - 0) + (1 - 0) * (0 - 0) + (1 - 0) * (1 - 0) = 1 := by
    norm_num
  rw [hcos, hs2]
  have harg : (min 1 (max (-1) ((1 : ℝ) / 2))) = 1 / 2 := by norm_num
  rw [harg]
  have harccos : Real.arccos (1 / 2) = π / 3 := by
    rw [← Real.cos_pi_div_three]
    exact Real.arccos_cos (by positivity) (by linarith [Real.pi_pos])
  rw [harccos]
  have : π / 3 * 180 / π = 60 := by field_simp; ring
  rw [this]
  have := roundTo1_intCast 60
  norm_num at this
  rw [this]

/-- C1, counterexample. Two landmark triples that agree in every x, y
and visibility and differ only in z coordinates give different angle values
(90.0 vs 60.0): the generic vertex angle is computed from the 3D vectors,
z included, so changing only z does change the result. -/
theorem C1_counterexample :
    calculateAngle3points 0.5 ⟨0, 1, 0, 1⟩ ⟨0, 0, 0, 1⟩ ⟨1, 0, 0, 1⟩ ≠
      calculateAngle3points 0.5 ⟨0, 1, 1, 1⟩ ⟨0, 0, 0, 1⟩ ⟨1, 0, 1, 1⟩ := by
  rw [angle3_right, angle3_sixty]
  intro h
  have := Option.some.inj h
  norm_num at this

/-- C1, amended. The generic vertex angle is computed from the full 3D
(x, y, z) components of the vectors `BA = A - B` and `BC = C - B`; it is
therefore invariant under any common translation of the three points (in all
three coordinates, visibilities fixed), but changing z coordinates alone can
change it. -/
theorem C1_translation_invariance (m : ℝ) (t : ℝ × ℝ × ℝ) (a b c : Landmark) :
    calculateAngle3points m (translateLm t a) (translateLm t b) (translateLm t c) =
      calculateAngle3points m a b c := by
  simp only [calculateAngle3points, translateLm, add_sub_add_right_eq_sub]

/-! ### Claim C9: strict visibility gating -/

/-- Reduction of the rotation-separation calculator once its four landmark
lookups succeed. -/
lemma hipShoulder_eq {m : ℝ} {lms : List Landmark} {lh rh ls rs : Landmark}
    (h23 : lms.get? 23 = some lh) (h24 : lms.get? 24 = some rh)
    (h11 : lms.get? 11 = some ls) (h12 : lms.get? 12 = some rs) :
    calculateHipShoulderSeparation m lms =
      if lh.visibility < m ∨ rh.visibility < m ∨ ls.visibility < m ∨
          rs.visibility < m then none
      else some (roundTo1 (|atan2 (rs.y - ls.y) (rs.x - ls.x) -
        atan2 (rh.y - lh.y) (rh.x - lh.x)| * 180 / π)) := by
  unfold calculateHipShoulderSeparation
  rw [h23, h24, h11, h12]

/-- C9. The visibility gates of both cited calculators are strict
comparisons.  For the 3-point calculator: a point strictly below
`min_visibility` suppresses the value, while points at exactly
`min_visibility` (or above) are accepted and, for nondegenerate vectors, a
value is produced.  For the rotation-separation calculator
(`hip_shoulder_separation`): one of the four gate points strictly below
`min_visibility` suppresses the value, while all four at exactly
`min_visibility` (or above) are accepted and a value is produced. -/
theorem C9_visibility_gate :
    (∀ (m : ℝ) (a b c : Landmark),
        (a.visibility < m ∨ b.visibility < m ∨ c.visibility < m) →
        calculateAngle3points m a b c = none) ∧
    (∀ (m : ℝ) (a b c : Landmark),
        m ≤ a.visibility → m ≤ b.visibility → m ≤ c.visibility →
        Real.sqrt ((a.x - b.x) ^ 2 + (a.y - b.y) ^ 2 + (a.z - b.z) ^ 2) ≠ 0 →
        Real.sqrt ((c.x - b.x) ^ 2 + (c.y - b.y) ^ 2 + (c.z - b.z) ^ 2) ≠ 0 →
        ∃ v, calculateAngle3points m a b c = some v) ∧
    (∀ (m : ℝ) (lms : List Landmark) (lh rh ls rs : Landmark),
        lms.get? 23 = some lh → lms.get? 24 = some rh →
        lms.get? 11 = some ls → lms.get? 12 = some rs →
        (lh.visibility < m ∨ rh.visibility < m ∨ ls.visibility < m ∨
          rs.visibility < m) →
        calculateHipShoulderSeparation m lms = none) ∧
    (∀ (m : ℝ) (lms : List Landmark) (lh rh ls rs : Landmark),
        lms.get? 23 = some lh → lms.get? 24 = some rh →
        lms.get? 11 = some ls → lms.get? 12 = some rs →
        m ≤ lh.visibility → m ≤ rh.visibility → m ≤ ls.visibility →
        m ≤ rs.visibility →
        ∃ v, calculateHipShoulderSeparation m lms = some v) := by
  refine ⟨?_, ?_, ?_, ?_⟩
  · intro m a b c h
    simp only [calculateAngle3points]
    rw [if_pos h]
  · intro m a b c ha hb hc hba hbc
    simp only [calculateAngle3points]
    rw [if_neg (by push_neg; exact ⟨ha, hb, hc⟩)]
    rw [if_neg (by push_neg; exact ⟨hba, hbc⟩)]
    exact ⟨_, rfl⟩
  · intro m lms lh rh ls rs h23 h24 h11 h12 h
    rw [hipShoulder_eq h23 h24 h11 h12, if_pos h]
  · intro m lms lh rh ls rs h23 h24 h11 h12 hlh hrh hls hrs
    rw [hipShoulder_eq h23 h24 h11 h12,
      if_neg (by push_neg; exact ⟨hlh, hrh, hls, hrs⟩)]
    exact ⟨_, rfl⟩

/-- Witness for C9: a 3-point input with one point at visibility 0.4 < 0.5
yields no value and one with all points at exactly 0.5 yields a value; a
rotation-separation frame with one gate point at 0.4 < 0.5 yields no value
and one with all four gate points at exactly 0.5 yields a value. -/
theorem C9_visibility_gate_witness :
    calculateAngle3points 0.5 ⟨0, 1, 0, 0.4⟩ ⟨0, 0, 0, 1⟩ ⟨1, 0, 0, 1⟩ = none ∧
      (∃ v, calculateAngle3points 0.5 ⟨0, 1, 0, 0.5⟩ ⟨0, 0, 0, 0.5⟩
        ⟨1, 0, 0, 0.5⟩ = some v) ∧
      calculateHipShoulderSeparation 0.5 lmC9lt = none ∧
      ∃ v, calculateHipShoulderSeparation 0.5 lmC9eq = some v := by
  refine ⟨?_, ?_, ?_, ?_⟩
  · exact C9_visibility_gate.1 0.5 _ _ _ (Or.inl (by norm_num))
  · exact C9_visibility_gate.2.1 0.5 ⟨0, 1, 0, 0.5⟩ ⟨0, 0, 0, 0.5⟩
      ⟨1, 0, 0, 0.5⟩ (by norm_num) (by norm_num) (by norm_num)
      (by norm_num [Real.sqrt_eq_zero']) (by norm_num [Real.sqrt_eq_zero'])
  · exact C9_visibility_gate.2.2.1 0.5 lmC9lt ⟨0, 0, 0, 0.5⟩ ⟨-1, -1, 0, 0.4⟩
      ⟨0, 0, 0, 0.5⟩ ⟨-1, 1, 0, 0.5⟩ rfl rfl rfl rfl
      (Or.inr (Or.inl (by norm_num)))
  · exact C9_visibility_gate.2.2.2 0.5 lmC9eq ⟨0, 0, 0, 0.5⟩ ⟨-1, -1, 0, 0.5⟩
      ⟨0, 0, 0, 0.5⟩ ⟨-1, 1, 0, 0.5⟩ rfl rfl rfl rfl
      (by norm_num) (by norm_num) (by norm_num) (by norm_num)

/-! ### Claim C10: zero-vector guard -/

/-- C10. If A coincides with the vertex B, or C coincides with B (in all
of x, y, z), the 3-point angle is absent (`None`): the zero-length vector is
caught before any division. -/
theorem C10_zero_vector (m : ℝ) (a b c : Landmark)
    (h : (a.x = b.x ∧ a.y = b.y ∧ a.z = b.z) ∨
         (c.x = b.x ∧ c.y = b.y ∧ c.z = b.z)) :
    calculateAngle3points m a b c = none := by
  simp only [calculateAngle3points]
  by_cases hv : a.visibility < m ∨ b.visibility < m ∨ c.visibility < m
  · rw [if_pos hv]
  · rw [if_neg hv]
    rcases h with ⟨hx, hy, hz⟩ | ⟨hx, hy, hz⟩
    · rw [if_pos (Or.inl (by simp [hx, hy, hz]))]
    · rw [if_pos (Or.inr (by simp [hx, hy, hz]))]

/-- Witness for C10: a concrete frame with A = B yields no value. -/
theorem C10_zero_vector_witness :
    calculateAngle3points 0.5 ⟨0, 0, 0, 1⟩ ⟨0, 0, 0, 1⟩ ⟨1, 1, 1, 1⟩ = none :=
  C10_zero_vector 0.5 _ _ _ (Or.inl ⟨rfl, rfl, rfl⟩)

/-! ### Claim C2: ranges of the two angle calculators -/

/-- The four-quadrant arctangent always lies in `[-π, π]`. -/
lemma atan2_mem_Icc (y x : ℝ) : -π ≤ atan2 y x ∧ atan2 y x ≤ π := by
  have hpi := Real.pi_pos
  have hub := Real.arctan_lt_pi_div_two (y / x)
  have hlb := Real.neg_pi_div_two_lt_arctan (y / x)
  unfold atan2
  split_ifs with h1 h2 h3 h4 h5
  · constructor <;> linarith
  · have hyx : y / x ≤ 0 := div_nonpos_iff.mpr (Or.inl ⟨h3, h2.le⟩)
    have harc : arctan (y / x) ≤ 0 := by
      have := Real.arctan_strictMono.monotone hyx
      rwa [Real.arctan_zero] at this
    constructor <;> linarith
  · have hy : y < 0 := lt_of_not_le h3
    have hyx : 0 ≤ y / x := (div_pos_iff.mpr (Or.inr ⟨hy, h2⟩)).le
    have harc : 0 ≤ arctan (y / x) := by
      have := Real.arctan_strictMono.monotone hyx
      rwa [Real.arctan_zero] at this
    constructor <;> linarith
  · constructor <;> linarith
  · constructor <;> linarith
  · constructor <;> linarith

/-- Value `atan2 1 (-1) = 3π/4`. -/
lemma atan2_one_neg_one : atan2 1 (-1) = 3 * π / 4 := by
  unfold atan2
  rw [if_neg (by norm_num), if_pos (by norm_num), if_pos (by norm_num)]
  rw [show (1 : ℝ) / (-1) = -1 by norm_num]
  rw [show ((-1) : ℝ) = -(1 : ℝ) by norm_num, Real.arctan_neg, Real.arctan_one]
  ring

/-- Value `atan2 (-1) (-1) = -3π/4`. -/
lemma atan2_neg_one_neg_one : atan2 (-1) (-1) = -(3 * π / 4) := by
  unfold atan2
  rw [if_neg (by norm_num), if_pos (by norm_num), if_neg (by norm_num)]
  rw [show ((-1) : ℝ) / (-1) = 1 by norm_num, Real.arctan_one]
  ring

/-- On `lmC2` the rotation-separation calculator returns 270 degrees. -/
lemma hip_sep_lmC2 : calculateHipShoulderSeparation 0.5 lmC2 = some 270 := by
  have hpi := Real.pi_pos
  have hπ := Real.pi_ne_zero
  have hred : calculateHipShoulderSeparation 0.5 lmC2 =
      (if (1 : ℝ) < 0.5 ∨ (1 : ℝ) < 0.5 ∨ (1 : ℝ) < 0.5 ∨ (1 : ℝ) < 0.5 then none
       else some (roundTo1 (|atan2 ((1 : ℝ) - 0) ((-1 : ℝ) - 0) -
         atan2 ((-1 : ℝ) - 0) ((-1 : ℝ) - 0)| * 180 / π))) := rfl
  rw [hred, if_neg (by norm_num)]
  rw [show ((1 : ℝ) - 0) = 1 by norm_num, show ((-1 : ℝ) - 0) = -1 by norm_num]
  rw [atan2_one_neg_one, atan2_neg_one_neg_one]
  have habs : |3 * π / 4 - -(3 * π / 4)| = 3 * π / 2 := by
    rw [abs_of_nonneg (by linarith)]
    ring
  rw [habs]
  have h270 : 3 * π / 2 * 180 / π = 270 := by field_simp; ring
  rw [h270]
  have h := roundTo1_intCast 270
  norm_num at h
  rw [h]

/-- C2, counterexample. A frame on which `hip_shoulder_separation`
returns 270 degrees, outside the claimed interval [0, 180]: the absolute
difference of two `atan2` orientations can reach up to 360 degrees. -/
theorem C2_counterexample :
    calculateHipShoulderSeparation 0.5 lmC2 = some 270 ∧ ¬((270 : ℝ) ≤ 180) :=
  ⟨hip_sep_lmC2, by norm_num⟩

/-- C2, amended. Every value returned by the generic 3-point formula
lies in [0, 180]; every value returned by the rotation-separation special
calculator lies in [0, 360] (not [0, 180]). -/
theorem C2_value_ranges :
    (∀ (m : ℝ) (a b c : Landmark) (v : ℝ),
        calculateAngle3points m a b c = some v → 0 ≤ v ∧ v ≤ 180) ∧
    (∀ (m : ℝ) (lms : List Landmark) (v : ℝ),
        calculateHipShoulderSeparation m lms = some v → 0 ≤ v ∧ v ≤ 360) := by
  have hpi := Real.pi_pos
  constructor
  · intro m a b c v h
    simp only [calculateAngle3points] at h
    split at h
    · exact absurd h (by simp)
    · split at h
      · exact absurd h (by simp)
      · replace h := Option.some.inj h
        subst h
        constructor
        · apply roundTo1_nonneg
          have := Real.arccos_nonneg (min 1 (max (-1)
            (((a.x - b.x) * (c.x - b.x) + (a.y - b.y) * (c.y - b.y) +
              (a.z - b.z) * (c.z - b.z)) /
              (Real.sqrt ((a.x - b.x) ^ 2 + (a.y - b.y) ^ 2 + (a.z - b.z) ^ 2) *
               Real.sqrt ((c.x - b.x) ^ 2 + (c.y - b.y) ^ 2 + (c.z - b.z) ^ 2)))))
          positivity
        · have h180 : ((180 : ℤ) : ℝ) = (180 : ℝ) := by norm_num
          rw [← h180]
          apply roundTo1_le_intCast
          rw [h180]
          have hle := Real.arccos_le_pi (min 1 (max (-1)
            (((a.x - b.x) * (c.x - b.x) + (a.y - b.y) * (c.y - b.y) +
              (a.z - b.z) * (c.z - b.z)) /
              (Real.sqrt ((a.x - b.x) ^ 2 + (a.y - b.y) ^ 2 + (a.z - b.z) ^ 2) *
               Real.sqrt ((c.x - b.x) ^ 2 + (c.y - b.y) ^ 2 + (c.z - b.z) ^ 2)))))
          calc Real.arccos _ * 180 / π ≤ π * 180 / π := by gcongr
            _ = 180 := by field_simp
  · intro m lms v h
    unfold calculateHipShoulderSeparation at h
    split at h
    · rename_i leftHip rightHip leftShoulder rightShoulder e1 e2 e3 e4
      split at h
      · exact absurd h (by simp)
      · replace h := Option.some.inj h
        subst h
        have hS := atan2_mem_Icc (rightShoulder.y - leftShoulder.y)
          (rightShoulder.x - leftShoulder.x)
        have hH := atan2_mem_Icc (rightHip.y - leftHip.y) (rightHip.x - leftHip.x)
        have habs : |atan2 (rightShoulder.y - leftShoulder.y)
            (rightShoulder.x - leftShoulder.x) -
            atan2 (rightHip.y - leftHip.y) (rightHip.x - leftHip.x)| ≤ 2 * π := by
          rw [abs_sub_le_iff]
          constructor <;> linarith [hS.1, hS.2, hH.1, hH.2]
        constructor
        · apply roundTo1_nonneg
          positivity
        · have h360 : ((360 : ℤ) : ℝ) = (360 : ℝ) := by norm_num
          rw [← h360]
          apply roundTo1_le_intCast
          rw [h360]
          calc |atan2 (rightShoulder.y - leftShoulder.y)
                (rightShoulder.x - leftShoulder.x) -
                atan2 (rightHip.y - leftHip.y) (rightHip.x - leftHip.x)| * 180 / π
              ≤ 2 * π * 180 / π := by gcongr
            _ = 360 := by field_simp; ring
    · exact absurd h (by simp)

/-- Witness for C2: the concrete values 90 (generic formula) and 270
(rotation separation) lie inside the amended intervals. -/
theorem C2_value_ranges_witness :
    (0 ≤ (90 : ℝ) ∧ (90 : ℝ) ≤ 180) ∧ (0 ≤ (270 : ℝ) ∧ (270 : ℝ) ≤ 360) :=
  ⟨C2_value_ranges.1 0.5 ⟨0, 1, 0, 1⟩ ⟨0, 0, 0, 1⟩ ⟨1, 0, 0, 1⟩ 90 angle3_right,
   C2_value_ranges.2 0.5 lmC2 270 hip_sep_lmC2⟩

/-! ### Claim C3: phase detection ignores the stored phase rules -/

/-- C3. `detect_phases` never reads the stored `phase_config`: two
detectors with arbitrary, different phase-rule lists but the same fps return
identical phase lists on every input. -/
theorem C3_config_independent (cfg1 cfg2 : List PhaseRule) (fps : ℝ)
    (input : AnglesResult) :
    detectPhases ⟨cfg1, fps⟩ input = detectPhases ⟨cfg2, fps⟩ input := rfl

/-! ### Claims C5 and C6: per-frame and per-angle failure behavior -/

lemma angle3_lm0 : calculateAngle3points 0.5 lm0 lm0 lm0 = none := by
  simp only [calculateAngle3points]
  rw [if_pos (Or.inl (by norm_num [lm0]))]

lemma hip_lms33 : calculateHipShoulderSeparation 0.5 lms33 = none := by
  have hred : calculateHipShoulderSeparation 0.5 lms33 =
      (if lm0.visibility < 0.5 ∨ lm0.visibility < 0.5 ∨ lm0.visibility < 0.5 ∨
          lm0.visibility < 0.5 then none
       else some (roundTo1 (|atan2 (lm0.y - lm0.y) (lm0.x - lm0.x) -
         atan2 (lm0.y - lm0.y) (lm0.x - lm0.x)| * 180 / π))) := rfl
  rw [hred, if_pos (Or.inl (by norm_num [lm0]))]

/-- On the all-invisible frame every angle is `None`, yet the frame dict is
produced (no exception occurs). -/
lemma frame_lms33 : calculateFrameAngles 0.5 lms33 = some allNone6 := by
  have h : calculateFrameAngles 0.5 lms33 = some
      [("left_arm_angle", calculateAngle3points 0.5 lm0 lm0 lm0),
       ("right_arm_angle", calculateAngle3points 0.5 lm0 lm0 lm0),
       ("spine_angle", calculateAngle3points 0.5 lm0 lm0 lm0),
       ("hip_shoulder_separation", calculateHipShoulderSeparation 0.5 lms33),
       ("left_knee_angle", calculateAngle3points 0.5 lm0 lm0 lm0),
       ("right_knee_angle", calculateAngle3points 0.5 lm0 lm0 lm0)] := rfl
  rw [h, angle3_lm0, hip_lms33]
  rfl

lemma frameEntry_lms33 : frameEntry 0.5 ⟨7, lms33⟩ = some ⟨7, allNone6⟩ := by
  unfold frameEntry
  have h : calculateFrameAngles 0.5 (FrameData.mk 7 lms33).landmarks =
      some allNone6 := frame_lms33
  rw [h]
  rfl

/-- C5, counterexample. A frame in which zero angles were successfully
computed (all points invisible) still produces a per-frame entry, with every
angle value being the `None` sentinel — the output is not empty. -/
theorem C5_counterexample :
    (calculateAngles 0.5 [⟨7, lms33⟩]).frame_angles = [⟨7, allNone6⟩] ∧
      ([⟨7, allNone6⟩] : List FrameAngles) ≠ [] := by
  constructor
  · simp only [calculateAngles]
    rw [List.filterMap_cons, frameEntry_lms33]
    rfl
  · simp

/-- C5, amended. Every frame whose frame-level computation succeeds
(returns a dict rather than raising) contributes exactly one per-frame
entry, carrying all six angle keys — individually failed angles appear as
`None` values inside the entry, not by omission of the entry. -/
theorem C5_frame_entry_presence (m : ℝ) (data : List FrameData) (fd : FrameData)
    (hmem : fd ∈ data) (d : List (String × Option ℝ))
    (hfr : calculateFrameAngles m fd.landmarks = some d) :
    d.map Prod.fst = ["left_arm_angle", "right_arm_angle", "spine_angle",
      "hip_shoulder_separation", "left_knee_angle", "right_knee_angle"] ∧
    (⟨fd.frame_index, d⟩ : FrameAngles) ∈ (calculateAngles m data).frame_angles := by
  have hkeys : d.map Prod.fst = ["left_arm_angle", "right_arm_angle",
      "spine_angle", "hip_shoulder_separation", "left_knee_angle",
      "right_knee_angle"] := by
    unfold calculateFrameAngles at hfr
    rcases hL : calculateArmAngle m fd.landmarks "left" with e | vL <;>
        rw [hL] at hfr
    · simp [Except.toOption, Bind.bind, Except.bind] at hfr
    rcases hR : calculateArmAngle m fd.landmarks "right" with e | vR <;>
        rw [hR] at hfr
    · simp [Except.toOption, Bind.bind, Except.bind] at hfr
    rcases hS : calculateSpineAngle m fd.landmarks with e | vS <;>
        rw [hS] at hfr
    · simp [Except.toOption, Bind.bind, Except.bind] at hfr
    rcases hK : calculateKneeAngle m fd.landmarks "left" with e | vK <;>
        rw [hK] at hfr
    · simp [Except.toOption, Bind.bind, Except.bind] at hfr
    rcases hK2 : calculateKneeAngle m fd.landmarks "right" with e | vK2 <;>
        rw [hK2] at hfr
    · simp [Except.toOption, Bind.bind, Except.bind] at hfr
    simp only [Except.toOption, Bind.bind, Except.bind, Except.map, pure,
      Except.pure] at hfr
    replace hfr := Option.some.inj hfr
    rw [← hfr]
    rfl
  have hne : d.isEmpty = false := by
    cases d with
    | nil => simp at hkeys
    | cons a l => rfl
  refine ⟨hkeys, ?_⟩
  simp only [calculateAngles]
  rw [List.mem_filterMap]
  refine ⟨fd, hmem, ?_⟩
  unfold frameEntry
  rw [hfr]
  simp [hne]

/-- Witness for C5: the all-invisible frame appears in the per-frame output
with all six keys mapped to `None`. -/
theorem C5_frame_entry_presence_witness :
    allNone6.map Prod.fst = ["left_arm_angle", "right_arm_angle", "spine_angle",
      "hip_shoulder_separation", "left_knee_angle", "right_knee_angle"] ∧
    (⟨7, allNone6⟩ : FrameAngles) ∈ (calculateAngles 0.5 [⟨7, lms33⟩]).frame_angles :=
  C5_frame_entry_presence 0.5 [⟨7, lms33⟩] ⟨7, lms33⟩ (by simp) allNone6 frame_lms33

/-- C6, counterexample. On a frame where the left-arm angle is perfectly
computable (it evaluates to 90 degrees in isolation), an out-of-range
landmark reference in the right-arm computation makes the angle dict of the whole
frame `None`: the per-angle failure wiped out the other angles of the
same frame. -/
theorem C6_counterexample :
    calculateFrameAngles 0.5 lms16 = none ∧
      calculateArmAngle 0.5 lms16 "left" = Except.ok (some 90) := by
  constructor
  · rfl
  · have h : calculateArmAngle 0.5 lms16 "left" =
        Except.ok (calculateAngle3points 0.5 ⟨0, 1, 0, 1⟩ ⟨0, 0, 0, 1⟩
          ⟨1, 0, 0, 1⟩) := rfl
    rw [h, angle3_right]

lemma getLandmark_some {lms : List Landmark} {i : ℕ} {p : Landmark}
    (h : lms.get? i = some p) : getLandmark lms i = .ok p := by
  unfold getLandmark
  rw [h]

lemma ok_bind {α β : Type} (a : α) (f : α → Except PyErr β) :
    (Except.ok a >>= f) = f a := rfl

/-- C6, amended. Failures that return `None` (low visibility, degenerate
geometry, failures inside the guarded special calculator) are local to their
angle: whenever every landmark subscript is in range, the frame dict is
produced and each of the six slots holds exactly the result of its own
calculator.  An exception in the computation of one angle (such as an
out-of-range landmark subscript), however, discards the dict of the entire
frame; the overall
computation still continues with the remaining frames. -/
theorem C6_failure_locality :
    (∀ (m : ℝ) (l1 l2 : List FrameData),
        (calculateAngles m (l1 ++ l2)).frame_angles =
          (calculateAngles m l1).frame_angles ++
            (calculateAngles m l2).frame_angles) ∧
    (∀ (m : ℝ) (lms : List Landmark)
        (p11 p12 p13 p14 p15 p16 p23 p24 p25 p26 p27 p28 : Landmark),
        lms.get? 11 = some p11 → lms.get? 12 = some p12 →
        lms.get? 13 = some p13 → lms.get? 14 = some p14 →
        lms.get? 15 = some p15 → lms.get? 16 = some p16 →
        lms.get? 23 = some p23 → lms.get? 24 = some p24 →
        lms.get? 25 = some p25 → lms.get? 26 = some p26 →
        lms.get? 27 = some p27 → lms.get? 28 = some p28 →
        calculateFrameAngles m lms = some
          [("left_arm_angle", calculateAngle3points m p11 p13 p15),
           ("right_arm_angle", calculateAngle3points m p12 p14 p16),
           ("spine_angle", calculateAngle3points m p11 p23 p25),
           ("hip_shoulder_separation", calculateHipShoulderSeparation m lms),
           ("left_knee_angle", calculateAngle3points m p23 p25 p27),
           ("right_knee_angle", calculateAngle3points m p24 p26 p28)]) := by
  constructor
  · intro m l1 l2
    simp only [calculateAngles]
    exact List.filterMap_append l1 l2 (frameEntry m)
  · intro m lms p11 p12 p13 p14 p15 p16 p23 p24 p25 p26 p27 p28
      h11 h12 h13 h14 h15 h16 h23 h24 h25 h26 h27 h28
    unfold calculateFrameAngles calculateArmAngle calculateSpineAngle
      calculateKneeAngle
    rw [show lookupIndex ("left" ++ "_shoulder") = Except.ok 11 from rfl,
        show lookupIndex ("right" ++ "_shoulder") = Except.ok 12 from rfl,
        show lookupIndex ("left" ++ "_elbow") = Except.ok 13 from rfl,
        show lookupIndex ("right" ++ "_elbow") = Except.ok 14 from rfl,
        show lookupIndex ("left" ++ "_wrist") = Except.ok 15 from rfl,
        show lookupIndex ("right" ++ "_wrist") = Except.ok 16 from rfl,
        show lookupIndex "left_shoulder" = Except.ok 11 from rfl,
        show lookupIndex "left_hip" = Except.ok 23 from rfl,
        show lookupIndex "left_knee" = Except.ok 25 from rfl,
        show lookupIndex ("left" ++ "_hip") = Except.ok 23 from rfl,
        show lookupIndex ("right" ++ "_hip") = Except.ok 24 from rfl,
        show lookupIndex ("left" ++ "_knee") = Except.ok 25 from rfl,
        show lookupIndex ("right" ++ "_knee") = Except.ok 26 from rfl,
        show lookupIndex ("left" ++ "_ankle") = Except.ok 27 from rfl,
        show lookupIndex ("right" ++ "_ankle") = Except.ok 28 from rfl]
    simp only [ok_bind]
    rw [getLandmark_some h11, getLandmark_some h12, getLandmark_some h13,
        getLandmark_some h14, getLandmark_some h15, getLandmark_some h16,
        getLandmark_some h23, getLandmark_some h24, getLandmark_some h25,
        getLandmark_some h26, getLandmark_some h27, getLandmark_some h28]
    simp only [ok_bind]
    rfl

/-- Witness for C6: frame-angle outputs concatenate across an input split,
and on the all-invisible 33-landmark frame the frame dict holds, for each
calculator, its own (here `None`) result. -/
theorem C6_failure_locality_witness :
    (calculateAngles 0.5 ([⟨7, lms33⟩] ++ [⟨8, lms16⟩])).frame_angles =
        (calculateAngles 0.5 [⟨7, lms33⟩]).frame_angles ++
          (calculateAngles 0.5 [⟨8, lms16⟩]).frame_angles ∧
      calculateFrameAngles 0.5 lms33 = some
        [("left_arm_angle", calculateAngle3points 0.5 lm0 lm0 lm0),
         ("right_arm_angle", calculateAngle3points 0.5 lm0 lm0 lm0),
         ("spine_angle", calculateAngle3points 0.5 lm0 lm0 lm0),
         ("hip_shoulder_separation", calculateHipShoulderSeparation 0.5 lms33),
         ("left_knee_angle", calculateAngle3points 0.5 lm0 lm0 lm0),
         ("right_knee_angle", calculateAngle3points 0.5 lm0 lm0 lm0)] :=
  ⟨C6_failure_locality.1 0.5 [⟨7, lms33⟩] [⟨8, lms16⟩],
   C6_failure_locality.2 0.5 lms33 lm0 lm0 lm0 lm0 lm0 lm0 lm0 lm0 lm0 lm0 lm0 lm0
     rfl rfl rfl rfl rfl rfl rfl rfl rfl rfl rfl rfl⟩

/-! ### Phase-detector infrastructure: lengths and anchor bounds -/

/-- The extracted series has exactly one entry per input frame. -/
lemma extract_foldl_length (name : String) (fa : List FrameAngles) :
    ∀ acc : List ℝ,
      (fa.foldl (fun angles frameData =>
        match dictGet frameData.angles name with
        | some v => angles ++ [v]
        | none =>
          match angles.getLast? with
          | some prev => angles ++ [prev]
          | none => angles ++ [0.0]) acc).length = acc.length + fa.length := by
  induction fa with
  | nil => intro acc; simp
  | cons fd rest ih =>
    intro acc
    rw [List.foldl_cons]
    rcases h1 : dictGet fd.angles name with _ | v
    · rcases h2 : acc.getLast? with _ | prev
      · simp only [h1, h2]
        rw [ih]
        simp [List.length_append]
        omega
      · simp only [h1, h2]
        rw [ih]
        simp [List.length_append]
        omega
    · simp only [h1]
      rw [ih]
      simp [List.length_append]
      omega

lemma extractAngleSeries_length (fa : List FrameAngles) (name : String) :
    (extractAngleSeries fa name).length = fa.length := by
  unfold extractAngleSeries
  rw [extract_foldl_length]
  simp

/-- A successful scan returns an index inside the scanned range. -/
lemma scanFirst_some_bounds (p : ℕ → Prop) [DecidablePred p] :
    ∀ (n a i : ℕ), scanFirst p a n = some i → a ≤ i ∧ i < a + n := by
  intro n
  induction n with
  | zero => intro a i h; simp [scanFirst] at h
  | succ k ih =>
    intro a i h
    unfold scanFirst at h
    split_ifs at h with hp
    · obtain rfl := Option.some.inj h
      omega
    · have := ih (a + 1) i h
      omega

lemma argmaxGo_lt (xs : List ℝ) :
    ∀ (cur best : ℕ) (bv : ℝ), best < cur →
      argmaxGo cur best bv xs < cur + xs.length := by
  induction xs with
  | nil =>
    intro cur best bv h
    unfold argmaxGo
    simpa using h
  | cons v rest ih =>
    intro cur best bv h
    unfold argmaxGo
    split_ifs with hv
    · have := ih (cur + 1) cur v (by omega)
      simp only [List.length_cons]
      omega
    · have := ih (cur + 1) best bv (by omega)
      simp only [List.length_cons]
      omega

lemma npArgmax_lt (xs : List ℝ) (h : xs ≠ []) : npArgmax xs < xs.length := by
  cases xs with
  | nil => exact absurd rfl h
  | cons v rest =>
    unfold npArgmax
    have := argmaxGo_lt rest 1 0 v (by omega)
    simp only [List.length_cons]
    omega

lemma argminGo_lt (xs : List ℝ) :
    ∀ (cur best : ℕ) (bv : ℝ), best < cur →
      argminGo cur best bv xs < cur + xs.length := by
  induction xs with
  | nil =>
    intro cur best bv h
    unfold argminGo
    simpa using h
  | cons v rest ih =>
    intro cur best bv h
    unfold argminGo
    split_ifs with hv
    · have := ih (cur + 1) cur v (by omega)
      simp only [List.length_cons]
      omega
    · have := ih (cur + 1) best bv (by omega)
      simp only [List.length_cons]
      omega

lemma npArgmin_lt (xs : List ℝ) (h : xs ≠ []) : npArgmin xs < xs.length := by
  cases xs with
  | nil => exact absurd rfl h
  | cons v rest =>
    unfold npArgmin
    have := argminGo_lt rest 1 0 v (by omega)
    simp only [List.length_cons]
    omega

lemma detectAddressEnd_lt (series : List ℝ) (h : series ≠ []) :
    detectAddressEnd series < series.length := by
  have hpos : 0 < series.length := List.length_pos.mpr h
  unfold detectAddressEnd
  split
  · rename_i i heq
    have := scanFirst_some_bounds _ _ _ _ heq
    omega
  · have h0 : (0 : ℝ) ≤ (series.length : ℝ) * 0.1 := by positivity
    have hlt : ⌊(series.length : ℝ) * 0.1⌋ < (series.length : ℤ) := by
      rw [Int.floor_lt]
      push_cast
      have h1 : (1 : ℝ) ≤ (series.length : ℝ) := by exact_mod_cast hpos
      nlinarith
    have hnn : 0 ≤ ⌊(series.length : ℝ) * 0.1⌋ := Int.floor_nonneg.mpr h0
    unfold pyInt
    rw [if_pos h0]
    omega

lemma detectTop_bounds (series : List ℝ) (s : ℕ) (hs : s < series.length) :
    s ≤ detectTop series s ∧ detectTop series s < series.length := by
  have hne : series.drop s ≠ [] := by
    apply List.ne_nil_of_length_pos
    rw [List.length_drop]
    omega
  have harg := npArgmax_lt (series.drop s) hne
  rw [List.length_drop] at harg
  unfold detectTop
  rw [if_neg (by simp [List.isEmpty_iff, hne])]
  omega

lemma detectImpact_bounds (series : List ℝ) (t : ℕ) (ht : t < series.length) :
    t ≤ detectImpact series t ∧ detectImpact series t < series.length := by
  have hne : series.drop t ≠ [] := by
    apply List.ne_nil_of_length_pos
    rw [List.length_drop]
    omega
  have harg := npArgmin_lt (series.drop t) hne
  rw [List.length_drop] at harg
  unfold detectImpact
  rw [if_neg (by simp [List.isEmpty_iff, hne])]
  omega

lemma detectFinish_bounds (series : List ℝ) (i : ℕ) (hi : i < series.length) :
    i ≤ detectFinish series i ∧ detectFinish series i < series.length := by
  unfold detectFinish
  split
  · rename_i j heq
    have := scanFirst_some_bounds _ _ _ _ heq
    omega
  · omega

/-- The anchors of one run, in dependency order, are monotone and in
range. -/
lemma anchors_chain (s : List ℝ) (hs : s ≠ []) :
    detectAddressEnd s ≤ detectTop s (detectAddressEnd s) ∧
    detectTop s (detectAddressEnd s) ≤
      detectImpact s (detectTop s (detectAddressEnd s)) ∧
    detectImpact s (detectTop s (detectAddressEnd s)) ≤
      detectFinish s (detectImpact s (detectTop s (detectAddressEnd s))) ∧
    detectFinish s (detectImpact s (detectTop s (detectAddressEnd s))) <
      s.length := by
  have h1 := detectAddressEnd_lt s hs
  have h2 := detectTop_bounds s _ h1
  have h3 := detectImpact_bounds s _ h2.2
  have h4 := detectFinish_bounds s _ h3.2
  exact ⟨h2.1, h3.1, h4.1, h4.2⟩

/-- Running `detect_phases` on an empty per-frame list returns no phases. -/
lemma detectPhases_nil (d : PhaseDetector) (input : AnglesResult)
    (h : input.frame_angles = []) : detectPhases d input = [] := by
  simp only [detectPhases]
  rw [if_pos (by simp [h])]

/-- Running `detect_phases` on a nonempty per-frame list always reaches phase
assembly. -/
lemma detectPhases_eq (d : PhaseDetector) (input : AnglesResult)
    (h : input.frame_angles ≠ []) :
    detectPhases d input = createPhases d
      (detectAddressEnd (extractAngleSeries input.frame_angles "left_arm_angle"))
      (detectTop (extractAngleSeries input.frame_angles "left_arm_angle")
        (detectAddressEnd (extractAngleSeries input.frame_angles "left_arm_angle")))
      (detectImpact (extractAngleSeries input.frame_angles "left_arm_angle")
        (detectTop (extractAngleSeries input.frame_angles "left_arm_angle")
          (detectAddressEnd (extractAngleSeries input.frame_angles "left_arm_angle"))))
      (detectFinish (extractAngleSeries input.frame_angles "left_arm_angle")
        (detectImpact (extractAngleSeries input.frame_angles "left_arm_angle")
          (detectTop (extractAngleSeries input.frame_angles "left_arm_angle")
            (detectAddressEnd
              (extractAngleSeries input.frame_angles "left_arm_angle")))))
      (extractAngleSeries input.frame_angles "left_arm_angle").length := by
  have hser : extractAngleSeries input.frame_angles "left_arm_angle" ≠ [] := by
    apply List.ne_nil_of_length_pos
    rw [extractAngleSeries_length]
    exact List.length_pos.mpr h
  simp only [detectPhases]
  rw [if_neg (by simp [List.isEmpty_iff, h]), if_neg (by simp [List.isEmpty_iff, hser])]

/-! ### Claims C4, C7, C8: phase detection behavior -/

lemma series_inputC4 :
    extractAngleSeries inputC4.frame_angles "left_arm_angle" = [0.0] := rfl

lemma frameToMs_zero (d : PhaseDetector) : frameToMs d 0 = 0 := by
  unfold frameToMs pyInt
  rw [show ((0 : ℤ) : ℝ) / d.fps * 1000 = 0 by simp]
  rw [if_pos le_rfl, Int.floor_zero]

lemma detectAddressEnd_single : detectAddressEnd [(0.0 : ℝ)] = 0 := by
  have h : detectAddressEnd [(0.0 : ℝ)] = (pyInt (((1 : ℕ) : ℝ) * 0.1)).toNat := rfl
  rw [h]
  have h2 : pyInt (((1 : ℕ) : ℝ) * 0.1) = 0 := by
    have hl : (((1 : ℕ) : ℝ) * 0.1) = 0.1 := by norm_num
    unfold pyInt
    rw [if_pos (by rw [hl]; norm_num), hl]
    rw [Int.floor_eq_iff]
    constructor <;> norm_num
  rw [h2]
  rfl

/-- On the single-frame all-zero series every anchor collapses to frame 0
and the five phases are still emitted. -/
lemma detectPhases_inputC4 (cfg : List PhaseRule) (fps : ℝ) :
    detectPhases ⟨cfg, fps⟩ inputC4 =
      [⟨"address", 0, 0, 0⟩, ⟨"backswing", 0, 0, 0⟩,
       ⟨"top", -2, 2, frameToMs ⟨cfg, fps⟩ 4⟩,
       ⟨"downswing", 0, 0, 0⟩, ⟨"follow_through", 0, 0, 0⟩] := by
  rw [detectPhases_eq _ _ (by simp [inputC4])]
  rw [series_inputC4, detectAddressEnd_single]
  have ht : detectTop [(0.0 : ℝ)] 0 = 0 := rfl
  have hi : detectImpact [(0.0 : ℝ)] 0 = 0 := rfl
  have hf : detectFinish [(0.0 : ℝ)] 0 = 0 := rfl
  rw [ht, hi, hf]
  simp [createPhases, frameToMs_zero]

/-- C4. Evaluation of `detect_phases` at the failing input: a one-frame
input whose frame lacks the target angle (so the extracted series is the
all-zero series) yields the full five-phase list via the fallback anchors —
not the empty list that the claim (and the dead `if not left_arm_angles`
guard) promises. -/
theorem C4_all_zero_series_phases :
    detectPhases ⟨[], 8⟩ inputC4 =
      [⟨"address", 0, 0, 0⟩, ⟨"backswing", 0, 0, 0⟩, ⟨"top", -2, 2, 500⟩,
       ⟨"downswing", 0, 0, 0⟩, ⟨"follow_through", 0, 0, 0⟩] ∧
      detectPhases ⟨[], 8⟩ inputC4 ≠ [] := by
  have hd : frameToMs ⟨[], (8 : ℝ)⟩ 4 = 500 := by
    unfold frameToMs pyInt
    rw [show ((4 : ℤ) : ℝ) / (8 : ℝ) * 1000 = 500 by norm_num]
    rw [if_pos (by norm_num)]
    rw [show (500 : ℝ) = ((500 : ℤ) : ℝ) by norm_num, Int.floor_intCast]
  have h := detectPhases_inputC4 [] 8
  rw [hd] at h
  rw [h]
  exact ⟨rfl, by simp⟩

/-- C8. For every nonempty per-frame input, the four anchors are
monotone (`address_end ≤ top ≤ impact ≤ finish`) and every emitted phase
satisfies `start_frame ≤ end_frame`. -/
theorem C8_phase_monotonicity (d : PhaseDetector) (input : AnglesResult)
    (h : input.frame_angles ≠ []) :
    (detectAddressEnd (extractAngleSeries input.frame_angles "left_arm_angle") ≤
        detectTop (extractAngleSeries input.frame_angles "left_arm_angle")
          (detectAddressEnd
            (extractAngleSeries input.frame_angles "left_arm_angle")) ∧
      detectTop (extractAngleSeries input.frame_angles "left_arm_angle")
          (detectAddressEnd
            (extractAngleSeries input.frame_angles "left_arm_angle")) ≤
        detectImpact (extractAngleSeries input.frame_angles "left_arm_angle")
          (detectTop (extractAngleSeries input.frame_angles "left_arm_angle")
            (detectAddressEnd
              (extractAngleSeries input.frame_angles "left_arm_angle"))) ∧
      detectImpact (extractAngleSeries input.frame_angles "left_arm_angle")
          (detectTop (extractAngleSeries input.frame_angles "left_arm_angle")
            (detectAddressEnd
              (extractAngleSeries input.frame_angles "left_arm_angle"))) ≤
        detectFinish (extractAngleSeries input.frame_angles "left_arm_angle")
          (detectImpact (extractAngleSeries input.frame_angles "left_arm_angle")
            (detectTop (extractAngleSeries input.frame_angles "left_arm_angle")
              (detectAddressEnd
                (extractAngleSeries input.frame_angles "left_arm_angle"))))) ∧
    ∀ ph ∈ detectPhases d input, ph.start_frame ≤ ph.end_frame := by
  have hser : extractAngleSeries input.frame_angles "left_arm_angle" ≠ [] := by
    apply List.ne_nil_of_length_pos
    rw [extractAngleSeries_length]
    exact List.length_pos.mpr h
  have hc := anchors_chain _ hser
  obtain ⟨hat, hti, hif, _⟩ := hc
  refine ⟨⟨hat, hti, hif⟩, ?_⟩
  intro ph hmem
  rw [detectPhases_eq d input h] at hmem
  simp only [createPhases, List.mem_cons, List.not_mem_nil, or_false] at hmem
  rcases hmem with rfl | rfl | rfl | rfl | rfl
  · dsimp only
    omega
  · dsimp only
    omega
  · dsimp only
    omega
  · dsimp only
    omega
  · dsimp only
    omega

/-- Witness for C8: on the concrete single-frame input the anchor ordering
holds and the emitted "top" phase has `start_frame ≤ end_frame`. -/
theorem C8_phase_monotonicity_witness :
    detectAddressEnd [(0.0 : ℝ)] ≤
        detectTop [(0.0 : ℝ)] (detectAddressEnd [(0.0 : ℝ)]) ∧
      (Phase.mk "top" (-2) 2 (frameToMs ⟨[], 8⟩ 4)).start_frame ≤
        (Phase.mk "top" (-2) 2 (frameToMs ⟨[], 8⟩ 4)).end_frame := by
  have h := C8_phase_monotonicity ⟨[], 8⟩ inputC4 (by simp [inputC4])
  constructor
  · have h1 := h.1.1
    rw [series_inputC4] at h1
    exact h1
  · apply h.2
    rw [detectPhases_inputC4 [] 8]
    simp

/-- C7, counterexample. At 24 fps the emitted "top" phase spans 4 frames
and carries `duration_ms = 166` (truncation of 166.67), while rounding to
the nearest integer would give 167: `duration_ms` is not
`round(frame_count / fps * 1000)`. -/
theorem C7_counterexample :
    (detectPhases ⟨[], 24⟩ inputC4).get? 2 = some ⟨"top", -2, 2, 166⟩ ∧
      round ((((2 : ℤ) - (-2 : ℤ)) : ℝ) / 24 * 1000) ≠ (166 : ℤ) := by
  constructor
  · have hd : frameToMs ⟨[], (24 : ℝ)⟩ 4 = 166 := by
      unfold frameToMs pyInt
      rw [if_pos (by norm_num)]
      rw [Int.floor_eq_iff]
      constructor <;> norm_num
    have h := detectPhases_inputC4 [] 24
    rw [hd] at h
    rw [h]
    rfl
  · have : round ((((2 : ℤ) - (-2 : ℤ)) : ℝ) / 24 * 1000) = 167 := by
      rw [round_eq]
      rw [show (((2 : ℤ) - (-2 : ℤ)) : ℝ) = 4 by norm_num]
      rw [Int.floor_eq_iff]
      constructor <;> norm_num
    rw [this]
    norm_num

/-- C7, amended. For every emitted phase, `duration_ms` is the
truncation (floor, all frame counts being nonnegative) of
`frame_count / fps * 1000` — `int(...)` in the source — not the rounding to
the nearest integer. -/
theorem C7_duration_truncation (d : PhaseDetector) (input : AnglesResult)
    (hfps : 0 < d.fps) (ph : Phase) (hmem : ph ∈ detectPhases d input) :
    ph.duration_ms = ⌊((ph.end_frame - ph.start_frame : ℤ) : ℝ) / d.fps * 1000⌋ := by
  have hfl : ∀ c : ℤ, 0 ≤ c → frameToMs d c = ⌊(c : ℝ) / d.fps * 1000⌋ := by
    intro c hc0
    unfold frameToMs pyInt
    rw [if_pos ?_]
    have hcr : (0 : ℝ) ≤ (c : ℝ) := by exact_mod_cast hc0
    positivity
  by_cases hN : input.frame_angles = []
  · rw [detectPhases_nil d input hN] at hmem
    simp at hmem
  · have hser : extractAngleSeries input.frame_angles "left_arm_angle" ≠ [] := by
      apply List.ne_nil_of_length_pos
      rw [extractAngleSeries_length]
      exact List.length_pos.mpr hN
    obtain ⟨hat, hti, hif, _⟩ := anchors_chain _ hser
    rw [detectPhases_eq d input hN] at hmem
    simp only [createPhases, List.mem_cons, List.not_mem_nil, or_false] at hmem
    rcases hmem with rfl | rfl | rfl | rfl | rfl
    · dsimp only
      rw [show ((detectAddressEnd
            (extractAngleSeries input.frame_angles "left_arm_angle") : ℤ) - 0) =
          (detectAddressEnd
            (extractAngleSeries input.frame_angles "left_arm_angle") : ℤ) by ring]
      exact hfl _ (by omega)
    · dsimp only
      exact hfl _ (by omega)
    · dsimp only
      rw [show ((detectTop (extractAngleSeries input.frame_angles "left_arm_angle")
            (detectAddressEnd
              (extractAngleSeries input.frame_angles "left_arm_angle")) : ℤ) + 2 -
          ((detectTop (extractAngleSeries input.frame_angles "left_arm_angle")
            (detectAddressEnd
              (extractAngleSeries input.frame_angles "left_arm_angle")) : ℤ) - 2)) =
          (4 : ℤ) by ring]
      exact hfl _ (by omega)
    · dsimp only
      exact hfl _ (by omega)
    · dsimp only
      exact hfl _ (by omega)

/-- Witness for C7: the "top" phase emitted at 8 fps has
`duration_ms = 500 = ⌊4 / 8 * 1000⌋`. -/
theorem C7_duration_truncation_witness :
    (Phase.mk "top" (-2) 2 500).duration_ms =
      ⌊((((2 : ℤ) - (-2 : ℤ)) : ℤ) : ℝ) / (8 : ℝ) * 1000⌋ := by
  have hd : frameToMs ⟨[], (8 : ℝ)⟩ 4 = 500 := by
    unfold frameToMs pyInt
    rw [show ((4 : ℤ) : ℝ) / (8 : ℝ) * 1000 = 500 by norm_num]
    rw [if_pos (by norm_num)]
    rw [show (500 : ℝ) = ((500 : ℤ) : ℝ) by norm_num, Int.floor_intCast]
  have hmem : (Phase.mk "top" (-2) 2 500) ∈ detectPhases ⟨[], 8⟩ inputC4 := by
    have h := detectPhases_inputC4 [] 8
    rw [hd] at h
    rw [h]
    simp
  exact C7_duration_truncation ⟨[], 8⟩ inputC4 (by norm_num) _ hmem

end MotionLab
